import Mathlib

/-!
Verification of the scheduler / reliability core of the
`agentic_crypto_influencer` repository.

Shallow embedding of:
- `error_management/exceptions.py` (exception taxonomy, `is_retryable_error`,
  `get_retry_delay`),
- `error_management/retry.py` (`CircuitBreaker`, the `retry` decorator),
- `tools/scheduler_manager.py` (`SchedulerManager`: job creation, GraphFlow
  process supervision, status reads),
- `config/scheduler_constants.py` (the constants the above use).

Python floats (timestamps, delays) are modelled as rationals `ℚ`.
Raising an exception is modelled with explicit sum types (`Except`,
dedicated result inductives).  External collaborators (the OS process
table, the cron/date parsers of the scheduling library, the Redis
store) are modelled as oracle parameters, since their code is not part
of this repository.
-/

namespace AgenticCrypto

/-- The exception taxonomy of `error_management/exceptions.py`.
Each constructor corresponds to one exception class; only the fields
that influence control flow in the verified code are carried
(`retry_after` for the rate-limit and retryable classes, the
`service`/`endpoint` strings of `APIConnectionError`).  The class
hierarchy is flat in the source except for the `APIError` subclasses,
and `is_retryable_error` only tests concrete classes, so a flat sum is
a faithful model.  `otherException` stands for any exception outside
the module's taxonomy (e.g. a bare `Exception`). -/
inductive PyError where
  | agenticError (msg : String)
  | configurationError (msg : String)
  | validationError (msg : String)
  | apiError (msg : String)
  | apiConnectionError (service endpoint : String)
  | apiTimeoutError (service endpoint : String)
  | apiRateLimitError (service endpoint : String) (retry_after : Option ℚ)
  | apiAuthenticationError (service endpoint : String)
  | dataProcessingError (msg : String)
  | redisConnectionError (msg : String)
  | workflowError (msg : String)
  | externalServiceError (msg : String)
  | retryableError (msg : String) (retry_after : Option ℚ)
  | nonRetryableError (msg : String)
  | otherException (msg : String)
deriving DecidableEq

/-- `exceptions.is_retryable_error`: the isinstance cascade, in source
order.  `RetryableError` → True; `NonRetryableError` → False;
connection/timeout/rate-limit → True; authentication → False;
configuration/validation → False; finally `RedisConnectionError` → True
and everything else False. -/
def is_retryable_error : PyError → Bool
  | .retryableError _ _ => true
  | .nonRetryableError _ => false
  | .apiConnectionError _ _ => true
  | .apiTimeoutError _ _ => true
  | .apiRateLimitError _ _ _ => true
  | .apiAuthenticationError _ _ => false
  | .configurationError _ => false
  | .validationError _ => false
  | .redisConnectionError _ => true
  | _ => false

/-- The `retry_after` attribute lookup of `exceptions.get_retry_delay`:
only `APIRateLimitError` and `RetryableError` define the attribute (and
no class in the module defines `retry_delay`, so that second `hasattr`
branch is dead). -/
def retryAfterAttr : PyError → Option ℚ
  | .apiRateLimitError _ _ ra => ra
  | .retryableError _ ra => ra
  | _ => none

/-- `exceptions.get_retry_delay(error, attempt)`.  The sampled uniform
jitter (Python `random.uniform(0.1, 0.5)`) is passed in explicitly as
`jitter`.  The function always returns a float: the declared fallback
in its callers for a `None` return is unreachable. -/
def get_retry_delay (e : PyError) (attempt : ℕ) (jitter : ℚ) : ℚ :=
  match retryAfterAttr e with
  | some ra => ra
  | none => 2 ^ attempt + jitter

/-- `retry.CircuitState`. -/
inductive CircuitState where
  | closed
  | «open»
  | half_open
deriving DecidableEq

/-- `retry.CircuitBreaker`: configuration plus mutable bookkeeping. -/
structure CircuitBreaker where
  service_name : String
  failure_threshold : ℕ
  reset_timeout : ℚ
  success_threshold : ℕ
  failure_count : ℕ
  success_count : ℕ
  last_failure_time : Option ℚ
  state : CircuitState
deriving DecidableEq

/-- `CircuitBreaker._should_attempt_reset`, with `time.time()` passed
in as `now`. -/
def _should_attempt_reset (cb : CircuitBreaker) (now : ℚ) : Bool :=
  decide (cb.state = CircuitState.«open») &&
    match cb.last_failure_time with
    | some t => decide (now - t ≥ cb.reset_timeout)
    | none => false

/-- `CircuitBreaker._record_success`. -/
def _record_success (cb : CircuitBreaker) : CircuitBreaker :=
  let cb := { cb with failure_count := 0, last_failure_time := none }
  match cb.state with
  | .half_open =>
      let sc := cb.success_count + 1
      if sc ≥ cb.success_threshold then
        { cb with state := .closed, success_count := 0 }
      else
        { cb with success_count := sc }
  | .closed => { cb with success_count := 0 }
  | .«open» => cb

/-- `CircuitBreaker._record_failure`, with `time.time()` passed in as
`now`. -/
def _record_failure (cb : CircuitBreaker) (now : ℚ) : CircuitBreaker :=
  let cb := { cb with
    failure_count := cb.failure_count + 1,
    last_failure_time := some now,
    success_count := 0 }
  if cb.state = .closed ∧ cb.failure_count ≥ cb.failure_threshold then
    { cb with state := .«open» }
  else if cb.state = .half_open then
    { cb with state := .«open» }
  else
    cb

/-- The exception raised by `CircuitBreaker.call` when rejecting: an
`APIConnectionError` with endpoint `"circuit_breaker"` (the message and
the state/failure-count context do not influence classification). -/
def circuitOpenError (cb : CircuitBreaker) : PyError :=
  .apiConnectionError cb.service_name "circuit_breaker"

/-- Result of one `CircuitBreaker.call`: either the call was rejected
without the wrapped function being invoked, or the function ran and its
result (value or re-raised error) is returned. -/
inductive CallResult (α : Type) where
  | rejected (e : PyError)
  | ran (r : Except PyError α)

/-- `CircuitBreaker.call`.  The wrapped function is modelled by the
outcome it would produce if invoked (`outcome`); `now` is
`time.time()` during this call.  Returns the call result together with
the updated breaker. -/
def CircuitBreaker.call (cb : CircuitBreaker) (now : ℚ)
    (outcome : Except PyError α) : CallResult α × CircuitBreaker :=
  if cb.state = CircuitState.«open» ∧ ¬ _should_attempt_reset cb now then
    (.rejected (circuitOpenError cb), cb)
  else
    let cb := if cb.state = CircuitState.«open» then
        { cb with state := .half_open }
      else cb
    match outcome with
    | .ok v => (.ran (.ok v), _record_success cb)
    | .error e => (.ran (.error e), _record_failure cb now)

/-- Outcome of the `retry.retry` decorator's wrapper: the wrapped call
succeeded, an exception was (re-)raised, or — only possible when
`max_attempts = 0`, where Python's `for` loop body never runs and
`last_exception` is `None` — the wrapper falls off the end and returns
`None`. -/
inductive RetryResult (α : Type) where
  | success (v : α)
  | raised (e : PyError)
  | noneReturn

/-- Trace of one run of the retry wrapper: the final result, how many
times the wrapped function was invoked, and the delays slept between
attempts (in order). -/
structure RetryOut (α : Type) where
  result : RetryResult α
  calls : ℕ
  delays : List ℚ

/-- The loop body of `retry.retry`'s `wrapper`, with the default
`exceptions=(Exception,)` (catch everything).  `outcomes k` is what the
wrapped function does on the attempt numbered `k` (1-based, as in the
source's `range(1, max_attempts + 1)`); `jitters k` is the jitter
sampled inside `get_retry_delay` during attempt `k`.  `fuel` counts the
remaining loop iterations (`max_attempts + 1 - attempt` at entry), and
`current_delay` is the decorator's running delay variable (multiplied
by `backoff` each retry).  Note that `get_retry_delay` always returns a
value, so the source's `if retry_delay is None: retry_delay =
current_delay` fallback never fires and `current_delay` never reaches
`time.sleep`. -/
def retryGo (outcomes : ℕ → Except PyError α) (jitters : ℕ → ℚ)
    (max_attempts : ℕ) (backoff : ℚ) :
    (attempt : ℕ) → (fuel : ℕ) → (current_delay : ℚ) → RetryOut α
  | _, 0, _ => ⟨.noneReturn, 0, []⟩
  | attempt, fuel + 1, current_delay =>
    match outcomes attempt with
    | .ok v => ⟨.success v, 1, []⟩
    | .error e =>
      if is_retryable_error e = false then ⟨.raised e, 1, []⟩
      else if attempt = max_attempts then ⟨.raised e, 1, []⟩
      else
        let retry_delay := get_retry_delay e attempt (jitters attempt)
        let rest := retryGo outcomes jitters max_attempts backoff
          (attempt + 1) fuel (current_delay * backoff)
        ⟨rest.result, rest.calls + 1, retry_delay :: rest.delays⟩

/-- One run of the function produced by `retry.retry(max_attempts,
delay, backoff_factor)` applied to a function behaving as `outcomes`. -/
def retryRun (outcomes : ℕ → Except PyError α) (jitters : ℕ → ℚ)
    (max_attempts : ℕ) (delay backoff : ℚ) : RetryOut α :=
  retryGo outcomes jitters max_attempts backoff 1 max_attempts delay

/-! ## Scheduler: constants and job creation
(`config/scheduler_constants.py`, `tools/scheduler_manager.py`) -/

/-- `scheduler_constants.CRON_PRESETS`. -/
def CRON_PRESETS : List (String × String) :=
  [("every_hour", "0 * * * *"),
   ("every_2_hours", "0 */2 * * *"),
   ("every_4_hours", "0 */4 * * *"),
   ("every_6_hours", "0 */6 * * *"),
   ("daily_9am", "0 9 * * *"),
   ("daily_12pm", "0 12 * * *"),
   ("daily_6pm", "0 18 * * *"),
   ("weekdays_9am", "0 9 * * 1-5"),
   ("weekends_10am", "0 10 * * 6,0")]

/-- `scheduler_constants.GRAPHFLOW_TIMEOUT_SECONDS` (one hour). -/
def GRAPHFLOW_TIMEOUT_SECONDS : ℕ := 3600

def GRAPHFLOW_STATUS_STOPPED : String := "stopped"
def GRAPHFLOW_STATUS_STARTING : String := "starting"
def GRAPHFLOW_STATUS_RUNNING : String := "running"
def GRAPHFLOW_STATUS_STOPPING : String := "stopping"
def GRAPHFLOW_STATUS_ERROR : String := "error"

def JOB_TYPE_GRAPHFLOW : String := "graphflow"
def JOB_TYPE_SINGLE_POST : String := "single_post"
def JOB_TYPE_RECURRING : String := "recurring_post"

/-- An APScheduler trigger as produced by
`SchedulerManager._parse_schedule`: either a cron trigger (from a raw
expression or a preset) or a one-shot date trigger. -/
inductive TriggerSpec where
  | cron (expr : String)
  | date (iso : String)
deriving DecidableEq

/-- `SchedulerManager._parse_schedule`.  The scheduling library's
parsers are external code, so they enter as oracles: `cronOk e` is
whether `CronTrigger.from_crontab(e)` succeeds, `dateOk s` whether
`datetime.fromisoformat(s)` succeeds.  Any parser exception is caught
and turned into `None`, as in the source. -/
def _parse_schedule (cronOk dateOk : String → Bool)
    (schedule_type schedule_value : String) : Option TriggerSpec :=
  if schedule_type = "preset" then
    match CRON_PRESETS.lookup schedule_value with
    | some cron_expr =>
        if cronOk cron_expr then some (.cron cron_expr) else none
    | none => none
  else if schedule_type = "cron" then
    if cronOk schedule_value then some (.cron schedule_value) else none
  else if schedule_type = "date" then
    if dateOk schedule_value then some (.date schedule_value) else none
  else
    none

/-- The persisted job metadata dictionary of
`SchedulerManager.create_scheduled_job` (timestamps as epoch seconds). -/
structure JobMeta where
  id : String
  name : String
  description : String
  type : String
  schedule_type : String
  schedule_value : String
  created_at : ℕ
  status : String
deriving DecidableEq

/-- Insert-or-replace into an association list: models both
APScheduler's `add_job(..., replace_existing=True)` and a Redis `SET`
on an existing key. -/
def upsert (xs : List (String × β)) (k : String) (v : β) :
    List (String × β) :=
  if xs.any (fun p => p.1 = k) then
    xs.map (fun p => if p.1 = k then (k, v) else p)
  else
    xs ++ [(k, v)]

/-- Joint state of the trigger engine and the persistent registry:
`triggers` are the live APScheduler jobs (id → trigger), `registry`
the Redis entries `job:{id}` → metadata. -/
structure SchedState where
  triggers : List (String × TriggerSpec)
  registry : List (String × JobMeta)
deriving DecidableEq

/-- Result of `SchedulerManager.create_scheduled_job`. -/
inductive CreateResult where
  | ok (job : JobMeta)
  | invalidSchedule
  | unknownJobType (t : String)
  | creationFailed
deriving DecidableEq

/-- `SchedulerManager.create_scheduled_job`.  `now` is the creation
time in epoch seconds (`int(datetime.now(UTC).timestamp())`);
`redisOk` is whether the Redis `SET` persisting the metadata succeeds
(a raising `SET` is caught by the method's outer `except`, which
returns a failure dictionary — with no rollback of the already
registered trigger).  The known job types are the keys of
`_get_job_function`'s table. -/
def create_scheduled_job (cronOk dateOk : String → Bool) (redisOk : Bool)
    (st : SchedState) (job_type schedule_type schedule_value : String)
    (job_name job_description : String) (now : ℕ) :
    CreateResult × SchedState :=
  let job_id := job_type ++ "_" ++ toString now
  match _parse_schedule cronOk dateOk schedule_type schedule_value with
  | none => (.invalidSchedule, st)
  | some trigger =>
    if job_type = JOB_TYPE_GRAPHFLOW ∨ job_type = JOB_TYPE_SINGLE_POST ∨
        job_type = JOB_TYPE_RECURRING then
      let st1 := { st with triggers := upsert st.triggers job_id trigger }
      if redisOk then
        let job_metadata : JobMeta :=
          { id := job_id, name := job_name, description := job_description,
            type := job_type, schedule_type := schedule_type,
            schedule_value := schedule_value, created_at := now,
            status := "scheduled" }
        (.ok job_metadata,
         { st1 with
           registry := upsert st1.registry ("job:" ++ job_id) job_metadata })
      else
        (.creationFailed, st1)
    else
      (.unknownJobType job_type, st)

/-! ## Process supervision (`tools/scheduler_manager.py`) -/

/-- The two Redis keys the supervisor owns:
`scheduler:graphflow_status` and `scheduler:graphflow_pid` (both
string-valued, absent when unset). -/
structure Store where
  graphflow_status : Option String
  graphflow_pid : Option String
deriving DecidableEq

/-- Python's `int(...)` on a stored pid value, returning `none` when
the conversion raises `ValueError`.  The supervisor itself only ever
stores `str(pid)` — a plain decimal digit string — so the model parses
exactly those and treats everything else as malformed. -/
def pyParseNat (s : String) : Option ℕ :=
  if s.data ≠ [] ∧ s.data.all (fun c => c.isDigit) then
    some (s.data.foldl (fun n c => 10 * n + (c.toNat - Char.toNat '0')) 0)
  else
    none

/-- `SchedulerManager.is_graphflow_running`, parametrised over the raw
results of the two Redis reads (`Except.error` models a raising
`get`/`decode`) and over the OS process table (`pid_exists`).  Any
exception in the body is caught and yields `False`. -/
def is_graphflow_runningE (getStatus getPid : Except Unit (Option String))
    (pid_exists : ℕ → Bool) : Bool :=
  match getStatus with
  | .error _ => false
  | .ok st =>
    if st = some GRAPHFLOW_STATUS_RUNNING then
      match getPid with
      | .error _ => false
      | .ok (some pid_str) =>
        match pyParseNat pid_str with
        | some pid => pid_exists pid
        | none => false
      | .ok none => false
    else
      false

/-- `is_graphflow_running` against a reliable store. -/
def is_graphflow_running (s : Store) (pid_exists : ℕ → Bool) : Bool :=
  is_graphflow_runningE (.ok s.graphflow_status) (.ok s.graphflow_pid)
    pid_exists

/-- Result dictionary of `SchedulerManager.start_graphflow`. -/
inductive StartResult where
  | started (pid : ℕ)
  | alreadyRunning
  | startFailed
deriving DecidableEq

/-- `SchedulerManager.start_graphflow` against a reliable store.
`script_exists` is whether the GraphFlow entry-point file exists
(its absence raises `FileNotFoundError`, caught by the outer `except`,
which sets status to error); `new_pid` is the pid `Popen` would
assign.  Returns the structured result, the updated store, and whether
a process was spawned. -/
def start_graphflow (s : Store) (pid_exists : ℕ → Bool)
    (script_exists : Bool) (new_pid : ℕ) : StartResult × Store × Bool :=
  if is_graphflow_running s pid_exists then
    (.alreadyRunning, s, false)
  else
    let s := { s with graphflow_status := some GRAPHFLOW_STATUS_STARTING }
    if script_exists then
      (.started new_pid,
       { graphflow_pid := some (toString new_pid),
         graphflow_status := some GRAPHFLOW_STATUS_RUNNING },
       true)
    else
      (.startFailed,
       { s with graphflow_status := some GRAPHFLOW_STATUS_ERROR },
       false)

/-- What `process.communicate(timeout=GRAPHFLOW_TIMEOUT_SECONDS)`
did: the process exited with a return code, the one-hour timeout
expired (`TimeoutExpired`), or some other monitoring exception was
raised. -/
inductive MonitorOutcome where
  | exited (rc : ℤ)
  | timedOut
  | monitorFailed
deriving DecidableEq

/-- `SchedulerManager._monitor_graphflow_process`.  `process_present`
models the `if not self.graphflow_process: return` guard (always true
when the routine runs after a successful `start_graphflow`).  Returns
the updated store and whether `terminate()` was called on the
process. -/
def _monitor_graphflow_process (process_present : Bool) (s : Store)
    (o : MonitorOutcome) : Store × Bool :=
  if process_present = false then
    (s, false)
  else
    match o with
    | .exited rc =>
      if rc = 0 then
        ({ graphflow_status := some GRAPHFLOW_STATUS_STOPPED,
           graphflow_pid := none }, false)
      else
        ({ graphflow_status := some GRAPHFLOW_STATUS_ERROR,
           graphflow_pid := none }, false)
    | .timedOut =>
        ({ graphflow_status := some GRAPHFLOW_STATUS_ERROR,
           graphflow_pid := none }, true)
    | .monitorFailed =>
        ({ graphflow_status := some GRAPHFLOW_STATUS_ERROR,
           graphflow_pid := none }, false)

/-- The dictionary returned by `SchedulerManager.get_graphflow_status`:
always exactly the three keys `status`, `pid`, `is_running`. -/
structure StatusDict where
  status : String
  pid : Option ℕ
  is_running : Bool
deriving DecidableEq

/-- `SchedulerManager.get_graphflow_status`, parametrised over the raw
results of the two Redis reads, as in `is_graphflow_runningE`.  Any
exception in the body (raising read, unparsable pid) is caught and
yields the error dictionary `{status: "error", pid: None,
is_running: False}`; a missing status record defaults to `"stopped"`,
and a falsy (empty) pid value skips the `int(...)` conversion
(`... if pid_str else None`) instead of raising. -/
def get_graphflow_status (getStatus getPid : Except Unit (Option String))
    (pid_exists : ℕ → Bool) : StatusDict :=
  match getStatus with
  | .error _ => ⟨GRAPHFLOW_STATUS_ERROR, none, false⟩
  | .ok st =>
    let status_str := st.getD GRAPHFLOW_STATUS_STOPPED
    match getPid with
    | .error _ => ⟨GRAPHFLOW_STATUS_ERROR, none, false⟩
    | .ok none =>
        ⟨status_str, none, is_graphflow_runningE getStatus getPid pid_exists⟩
    | .ok (some pid_str) =>
      if pid_str = "" then
        ⟨status_str, none, is_graphflow_runningE getStatus getPid pid_exists⟩
      else
        match pyParseNat pid_str with
        | some pid =>
            ⟨status_str, some pid,
             is_graphflow_runningE getStatus getPid pid_exists⟩
        | none => ⟨GRAPHFLOW_STATUS_ERROR, none, false⟩

/-! ## Derived definitions used by the verification -/

/-- A sequence of consecutive failing calls through one breaker: each
element is the call's `time.time()` together with the exception the
wrapped function would raise if invoked.  The resulting breaker state
is the fold of `CircuitBreaker.call` over the sequence. -/
def failCalls (cb : CircuitBreaker) (calls : List (ℚ × PyError)) :
    CircuitBreaker :=
  calls.foldl
    (fun b c => (b.call c.1 (Except.error c.2 : Except PyError Unit)).2) cb

/-- Invariant of a breaker that started CLOSED with zero failures and
has since seen exactly `k` failing calls: it is still CLOSED counting
the failures (while below the threshold), or it is OPEN with a recorded
last-failure time. -/
def FailInv (cb : CircuitBreaker) (k : ℕ) : Prop :=
  (cb.state = .closed ∧ cb.failure_count = k ∧
    (k < cb.failure_threshold ∨ k = 0)) ∨
  (cb.state = .«open» ∧ cb.last_failure_time.isSome)

/-- The id `create_scheduled_job` reports for a successful creation. -/
def createdId : CreateResult → Option String
  | .ok m => some m.id
  | _ => none

/-- The generated job id: `f"{job_type}_{int(...timestamp())}"`. -/
def jobIdOf (job_type : String) (now : ℕ) : String :=
  job_type ++ "_" ++ toString now

/-- The metadata record a successful creation persists. -/
def jobMetaOf (job_type schedule_type schedule_value : String)
    (job_name job_description : String) (now : ℕ) : JobMeta :=
  { id := jobIdOf job_type now, name := job_name,
    description := job_description, type := job_type,
    schedule_type := schedule_type, schedule_value := schedule_value,
    created_at := now, status := "scheduled" }

/-- Whether `_get_job_function` knows the job type (the keys of its
handler table). -/
def KnownJobType (job_type : String) : Prop :=
  job_type = JOB_TYPE_GRAPHFLOW ∨ job_type = JOB_TYPE_SINGLE_POST ∨
    job_type = JOB_TYPE_RECURRING

/-! Concrete inputs used to instantiate the theorems below. -/

/-- A breaker for service `svcA` that has just opened: 5 failures
against a threshold of 5, last failure at time 0, reset timeout 60s
(the constructor defaults). -/
def cbOpen5 : CircuitBreaker := ⟨"svcA", 5, 60, 3, 5, 0, some 0, .«open»⟩

def redisDown : PyError := .redisConnectionError "connection refused"

def oRedisFail : ℕ → Except PyError ℕ := fun _ => .error redisDown

def oFailThenOk : ℕ → Except PyError ℕ :=
  fun i => if i ≤ 1 then .error redisDown else .ok 42

def oCircuitOpen : ℕ → Except PyError ℕ :=
  fun _ => .error (circuitOpenError cbOpen5)

def jit3 : ℕ → ℚ := fun _ => 3 / 10

/-- A fresh breaker with `failure_threshold = 2`. -/
def cbClosed2 : CircuitBreaker := ⟨"svcB", 2, 60, 3, 0, 0, none, .closed⟩

/-- Two consecutive failing calls, at times 0 and 1. -/
def callsTwo : List (ℚ × PyError) := [(0, redisDown), (1, redisDown)]

def allOk : String → Bool := fun _ => true

def oValidationFail : ℕ → Except PyError ℕ :=
  fun _ => .error (.validationError "bad input")

def rateLimited17 : PyError := .apiRateLimitError "x" "ep" (some 17)

def stEmpty : SchedState := ⟨[], []⟩

/-- Two successful creations of the same job type in the same epoch
second (with different human-facing names). -/
def createFirst : CreateResult × SchedState :=
  create_scheduled_job allOk allOk true stEmpty "graphflow" "cron"
    "0 * * * *" "a" "" 100

def createSecond : CreateResult × SchedState :=
  create_scheduled_job allOk allOk true createFirst.2 "graphflow" "cron"
    "0 * * * *" "b" "" 100

/-- A creation whose Redis persistence write fails after the trigger
has been registered. -/
def createPersistFail : CreateResult × SchedState :=
  create_scheduled_job allOk allOk false stEmpty "graphflow" "cron"
    "0 * * * *" "n" "d" 100

def storeRunning57 : Store := ⟨some "running", some "57"⟩

def pidIs57 : ℕ → Bool := fun n => n = 57

/-! ## Circuit breaker lemmas -/

theorem should_attempt_reset_false (cb : CircuitBreaker) (now t : ℚ)
    (hlft : cb.last_failure_time = some t)
    (hlt : now - t < cb.reset_timeout) :
    _should_attempt_reset cb now = false := by
  simp [_should_attempt_reset, hlft, not_le.mpr hlt]

theorem should_attempt_reset_true (cb : CircuitBreaker) (now t : ℚ)
    (hopen : cb.state = .«open») (hlft : cb.last_failure_time = some t)
    (hge : cb.reset_timeout ≤ now - t) :
    _should_attempt_reset cb now = true := by
  simp [_should_attempt_reset, hopen, hlft, hge]

theorem call_rejected (cb : CircuitBreaker) (now t : ℚ)
    (outcome : Except PyError α)
    (hopen : cb.state = .«open») (hlft : cb.last_failure_time = some t)
    (hlt : now - t < cb.reset_timeout) :
    cb.call now outcome = (.rejected (circuitOpenError cb), cb) := by
  have hre := should_attempt_reset_false cb now t hlft hlt
  simp [CircuitBreaker.call, hopen, hre]

theorem call_attempts (cb : CircuitBreaker) (now t : ℚ)
    (outcome : Except PyError α)
    (hopen : cb.state = .«open») (hlft : cb.last_failure_time = some t)
    (hge : cb.reset_timeout ≤ now - t) :
    (cb.call now outcome).1 = .ran outcome ∧
    (cb.call now outcome).2 =
      (match outcome with
       | .ok _ => _record_success { cb with state := .half_open }
       | .error _ => _record_failure { cb with state := .half_open } now) := by
  have hre := should_attempt_reset_true cb now t hopen hlft hge
  cases outcome with
  | ok v => simp [CircuitBreaker.call, hopen, hre]
  | error e => simp [CircuitBreaker.call, hopen, hre]

theorem failInv_step (cb : CircuitBreaker) (k : ℕ) (now : ℚ) (e : PyError)
    (h : FailInv cb k) :
    FailInv ((cb.call now (Except.error e : Except PyError Unit)).2) (k + 1) := by
  rcases h with ⟨hs, hc, _⟩ | ⟨hs, hlft⟩
  · have hcall : (cb.call now (Except.error e : Except PyError Unit)).2 =
        _record_failure cb now := by
      simp [CircuitBreaker.call, hs]
    rw [hcall]
    by_cases hth : cb.failure_count + 1 ≥ cb.failure_threshold
    · right
      constructor
      · simp [_record_failure, hs, hth]
      · simp [_record_failure, hs, hth]
    · left
      rw [hc] at hth
      have hth' : ¬ cb.failure_threshold ≤ k + 1 := hth
      have hthr : (_record_failure cb now).failure_threshold =
          cb.failure_threshold := by
        simp only [_record_failure, hs]
        split <;> simp_all
      refine ⟨?_, ?_, ?_⟩
      · simp [_record_failure, hs, hc, hth']
      · simp [_record_failure, hs, hc, hth']
      · rw [hthr]
        omega
  · by_cases hr : _should_attempt_reset cb now = true
    · have hcall : (cb.call now (Except.error e : Except PyError Unit)).2 =
          _record_failure { cb with state := .half_open } now := by
        simp [CircuitBreaker.call, hs, hr]
      rw [hcall]
      right
      constructor
      · simp [_record_failure]
      · simp [_record_failure]
    · have hcall : (cb.call now (Except.error e : Except PyError Unit)).2 = cb := by
        simp [CircuitBreaker.call, hs, hr]
      rw [hcall]
      exact Or.inr ⟨hs, hlft⟩

theorem failCalls_inv (calls : List (ℚ × PyError)) :
    ∀ (cb : CircuitBreaker) (k : ℕ), FailInv cb k →
      FailInv (failCalls cb calls) (k + calls.length) := by
  induction calls with
  | nil => intro cb k h; simpa [failCalls] using h
  | cons c rest ih =>
    intro cb k h
    have hstep := failInv_step cb k c.1 c.2 h
    have := ih _ (k + 1) hstep
    simpa [failCalls, List.foldl_cons, Nat.add_assoc, Nat.add_comm,
      Nat.add_left_comm] using this

theorem record_success_threshold (cb : CircuitBreaker) :
    (_record_success cb).failure_threshold = cb.failure_threshold := by
  simp only [_record_success]
  split <;> first | rfl | (split <;> rfl)

theorem record_failure_threshold (cb : CircuitBreaker) (now : ℚ) :
    (_record_failure cb now).failure_threshold = cb.failure_threshold := by
  simp only [_record_failure]
  split
  · rfl
  · split <;> rfl

theorem call_threshold (cb : CircuitBreaker) (now : ℚ)
    (o : Except PyError α) :
    ((cb.call now o).2).failure_threshold = cb.failure_threshold := by
  unfold CircuitBreaker.call
  split
  · rfl
  · cases o with
    | ok v =>
      simp only [record_success_threshold]
      split <;> rfl
    | error e =>
      simp only [record_failure_threshold]
      split <;> rfl

theorem failCalls_threshold (calls : List (ℚ × PyError)) :
    ∀ cb : CircuitBreaker,
      (failCalls cb calls).failure_threshold = cb.failure_threshold := by
  induction calls with
  | nil => intro cb; rfl
  | cons c rest ih =>
    intro cb
    have := ih ((cb.call c.1 (Except.error c.2 : Except PyError Unit)).2)
    simpa [failCalls, List.foldl_cons, call_threshold] using this

/-- Claim C2: a breaker that starts CLOSED with `failure_count = 0`
is OPEN with a recorded last-failure time after any sequence of at
least `failure_threshold` consecutive failing calls, and a call
attempted before `reset_timeout` has elapsed since that last failure
is rejected without the wrapped function being invoked. -/
theorem breaker_opens_after_threshold_failures
    (cb : CircuitBreaker) (calls : List (ℚ × PyError))
    (hclosed : cb.state = .closed) (hcount : cb.failure_count = 0)
    (hne : 1 ≤ calls.length)
    (hlen : cb.failure_threshold ≤ calls.length) :
    (failCalls cb calls).state = .«open» ∧
    (failCalls cb calls).last_failure_time.isSome ∧
    ∀ (α : Type) (now t : ℚ) (outcome : Except PyError α),
      (failCalls cb calls).last_failure_time = some t →
      now - t < (failCalls cb calls).reset_timeout →
      (failCalls cb calls).call now outcome =
        (.rejected (circuitOpenError (failCalls cb calls)),
         failCalls cb calls) := by
  have hinv := failCalls_inv calls cb 0
    (Or.inl ⟨hclosed, hcount, Or.inr rfl⟩)
  rcases hinv with ⟨_, hc, hbound⟩ | ⟨hopen, hlft⟩
  · exfalso
    rw [failCalls_threshold] at hbound
    omega
  · refine ⟨hopen, hlft, ?_⟩
    intro α now t outcome hlft' hlt
    exact call_rejected _ now t outcome hopen hlft' hlt

/-- Witness for C2 at a concrete breaker with threshold 2 and two
failing calls. -/
theorem breaker_opens_after_threshold_failures_witness :
    (failCalls cbClosed2 callsTwo).state = .«open» ∧
    (failCalls cbClosed2 callsTwo).call 2
        (Except.ok (0 : ℕ) : Except PyError ℕ) =
      (.rejected (circuitOpenError (failCalls cbClosed2 callsTwo)),
       failCalls cbClosed2 callsTwo) := by
  have hfc : failCalls cbClosed2 callsTwo =
      ⟨"svcB", 2, 60, 3, 2, 0, some 1, .«open»⟩ := by rfl
  have h := breaker_opens_after_threshold_failures cbClosed2 callsTwo
    rfl rfl (by norm_num [callsTwo]) (by norm_num [cbClosed2, callsTwo])
  refine ⟨h.1, ?_⟩
  refine h.2.2 ℕ 2 1 _ ?_ ?_
  · rw [hfc]
  · rw [hfc]
    norm_num

/-- Claim C6: for an OPEN breaker with recorded last-failure time `t`,
a call at time `now` with `now - t < reset_timeout` is rejected and
the wrapped function is not attempted; once `now - t ≥ reset_timeout`
the breaker moves to HALF_OPEN and the wrapped function is attempted
regardless of its outcome. -/
theorem open_breaker_timeout_gate (cb : CircuitBreaker) (t : ℚ)
    (hopen : cb.state = .«open») (hlft : cb.last_failure_time = some t) :
    ∀ (α : Type) (now : ℚ) (outcome : Except PyError α),
      (now - t < cb.reset_timeout →
        cb.call now outcome = (.rejected (circuitOpenError cb), cb)) ∧
      (cb.reset_timeout ≤ now - t →
        (cb.call now outcome).1 = .ran outcome ∧
        (cb.call now outcome).2 =
          (match outcome with
           | .ok _ => _record_success { cb with state := .half_open }
           | .error _ =>
               _record_failure { cb with state := .half_open } now)) := by
  intro α now outcome
  constructor
  · intro hlt
    exact call_rejected cb now t outcome hopen hlft hlt
  · intro hge
    exact call_attempts cb now t outcome hopen hlft hge

/-- Witness for C6 at the concrete just-opened breaker `cbOpen5`
(last failure at 0, reset timeout 60): a call at time 10 is rejected,
a call at time 70 attempts the function. -/
theorem open_breaker_timeout_gate_witness :
    cbOpen5.call 10 (Except.ok (1 : ℕ) : Except PyError ℕ) =
      (.rejected (circuitOpenError cbOpen5), cbOpen5) ∧
    (cbOpen5.call 70 (Except.ok (1 : ℕ) : Except PyError ℕ)).1 =
      .ran (.ok 1) := by
  constructor
  · exact (open_breaker_timeout_gate cbOpen5 0 rfl rfl ℕ 10
      (Except.ok 1)).1 (by norm_num [cbOpen5])
  · exact ((open_breaker_timeout_gate cbOpen5 0 rfl rfl ℕ 70
      (Except.ok 1)).2 (by norm_num [cbOpen5])).1

/-! ## Retry-loop lemmas -/

theorem retryGo_succ (o : ℕ → Except PyError α) (j : ℕ → ℚ)
    (m : ℕ) (b : ℚ) (a f : ℕ) (c : ℚ) :
    retryGo o j m b a (f + 1) c =
      match o a with
      | .ok v => ⟨.success v, 1, []⟩
      | .error e =>
        if is_retryable_error e = false then ⟨.raised e, 1, []⟩
        else if a = m then ⟨.raised e, 1, []⟩
        else
          let rest := retryGo o j m b (a + 1) f (c * b)
          ⟨rest.result, rest.calls + 1,
           get_retry_delay e a (j a) :: rest.delays⟩ := rfl

theorem retryGo_config_independent (o : ℕ → Except PyError α)
    (j : ℕ → ℚ) (m : ℕ) (b b' : ℚ) :
    ∀ (f a : ℕ) (c c' : ℚ),
      retryGo o j m b a f c = retryGo o j m b' a f c' := by
  intro f
  induction f with
  | zero => intro a c c'; rfl
  | succ f ih =>
    intro a c c'
    simp only [retryGo]
    cases h : o a with
    | ok v => rfl
    | error e =>
      by_cases hr : is_retryable_error e = false
      · simp [hr]
      · by_cases ha : a = m
        · simp [hr, ha]
        · simp only [hr, ha, if_false]
          rw [ih (a + 1) (c * b) (c' * b')]

theorem retryGo_allFail (o : ℕ → Except PyError α) (j : ℕ → ℚ) (m : ℕ)
    (b : ℚ) (errF : ℕ → PyError)
    (hfail : ∀ i, 1 ≤ i → i ≤ m → o i = .error (errF i))
    (hret : ∀ i, 1 ≤ i → i ≤ m → is_retryable_error (errF i) = true) :
    ∀ (f a : ℕ) (c : ℚ), 1 ≤ a → a + f = m →
      retryGo o j m b a (f + 1) c =
        ⟨.raised (errF m), f + 1,
         (List.range' a f).map
           (fun k => get_retry_delay (errF k) k (j k))⟩ := by
  intro f
  induction f with
  | zero =>
    intro a c ha ham
    have ham' : a = m := by omega
    subst ham'
    simp only [retryGo, hfail a ha le_rfl, hret a ha le_rfl]
    simp [List.range']
  | succ f ih =>
    intro a c ha ham
    have haltm : a ≤ m := by omega
    have hne : ¬ a = m := by omega
    rw [retryGo_succ, hfail a ha haltm]
    simp only [hret a ha haltm, Bool.true_eq_false, if_false, hne]
    rw [ih (a + 1) (c * b) (by omega) (by omega)]
    simp [List.range'_succ]

theorem retryRun_allFail (o : ℕ → Except PyError α) (j : ℕ → ℚ)
    (m : ℕ) (d b : ℚ) (errF : ℕ → PyError) (hm : 1 ≤ m)
    (hfail : ∀ i, 1 ≤ i → i ≤ m → o i = .error (errF i))
    (hret : ∀ i, 1 ≤ i → i ≤ m → is_retryable_error (errF i) = true) :
    retryRun o j m d b =
      ⟨.raised (errF m), m,
       (List.range' 1 (m - 1)).map
         (fun k => get_retry_delay (errF k) k (j k))⟩ := by
  obtain ⟨f, rfl⟩ : ∃ f, m = f + 1 :=
    ⟨m - 1, (Nat.succ_pred_eq_of_pos hm).symm⟩
  unfold retryRun
  rw [retryGo_allFail o j (f + 1) b errF hfail hret f 1 d le_rfl (by omega)]
  simp

theorem retryGo_failThenOk (o : ℕ → Except PyError α) (j : ℕ → ℚ)
    (m : ℕ) (b : ℚ) (errF : ℕ → PyError) (v : α) :
    ∀ (k a f : ℕ) (c : ℚ), 1 ≤ a → a + k ≤ m → a + f = m →
      (∀ i, a ≤ i → i < a + k → o i = .error (errF i)) →
      (∀ i, a ≤ i → i < a + k → is_retryable_error (errF i) = true) →
      o (a + k) = .ok v →
      (retryGo o j m b a (f + 1) c).result = .success v ∧
      (retryGo o j m b a (f + 1) c).calls = k + 1 := by
  intro k
  induction k with
  | zero =>
    intro a f c _ _ _ _ _ hok
    simp only [Nat.add_zero] at hok
    simp [retryGo, hok]
  | succ k ih =>
    intro a f c ha hkm hfm hfail hret hok
    have hfa : o a = .error (errF a) := hfail a le_rfl (by omega)
    have hra : is_retryable_error (errF a) = true := hret a le_rfl (by omega)
    have hne : ¬ a = m := by omega
    obtain ⟨f', rfl⟩ : ∃ f', f = f' + 1 := ⟨f - 1, by omega⟩
    rw [retryGo_succ, hfa]
    simp only [hra, Bool.true_eq_false, if_false, hne]
    have hrec := ih (a + 1) f' (c * b) (by omega) (by omega) (by omega)
      (fun i hi hi' => hfail i (by omega) (by omega))
      (fun i hi hi' => hret i (by omega) (by omega))
      (by rw [show a + 1 + k = a + (k + 1) by omega]; exact hok)
    exact ⟨hrec.1, by simp [hrec.2]⟩

theorem retryRun_first_nonretryable (o : ℕ → Except PyError α)
    (j : ℕ → ℚ) (m : ℕ) (d b : ℚ) (e : PyError) (hm : 1 ≤ m)
    (h1 : o 1 = .error e) (hnr : is_retryable_error e = false) :
    retryRun o j m d b = ⟨.raised e, 1, []⟩ := by
  obtain ⟨f, rfl⟩ : ∃ f, m = f + 1 :=
    ⟨m - 1, (Nat.succ_pred_eq_of_pos hm).symm⟩
  unfold retryRun
  simp [retryGo, h1, hnr]

/-- Claim C7: for the retry wrapper with `max_attempts` attempts,
(1) a function failing `k < max_attempts` times with retryable errors
and then succeeding makes the wrapper return the success value after
exactly `k + 1` invocations; (2) a function whose first error is
non-retryable is invoked exactly once and its error re-raised; and
(3) if all `max_attempts` attempts fail with retryable errors, the
last error is re-raised after exactly `max_attempts` invocations. -/
theorem retry_attempt_semantics :
    (∀ (α : Type) (o : ℕ → Except PyError α) (j : ℕ → ℚ) (m : ℕ)
       (d b : ℚ) (errF : ℕ → PyError) (k : ℕ) (v : α),
       k + 1 ≤ m →
       (∀ i, 1 ≤ i → i ≤ k → o i = .error (errF i)) →
       (∀ i, 1 ≤ i → i ≤ k → is_retryable_error (errF i) = true) →
       o (k + 1) = .ok v →
       (retryRun o j m d b).result = .success v ∧
       (retryRun o j m d b).calls = k + 1) ∧
    (∀ (α : Type) (o : ℕ → Except PyError α) (j : ℕ → ℚ) (m : ℕ)
       (d b : ℚ) (e : PyError),
       1 ≤ m → o 1 = .error e → is_retryable_error e = false →
       (retryRun o j m d b).result = .raised e ∧
       (retryRun o j m d b).calls = 1) ∧
    (∀ (α : Type) (o : ℕ → Except PyError α) (j : ℕ → ℚ) (m : ℕ)
       (d b : ℚ) (errF : ℕ → PyError),
       1 ≤ m →
       (∀ i, 1 ≤ i → i ≤ m → o i = .error (errF i)) →
       (∀ i, 1 ≤ i → i ≤ m → is_retryable_error (errF i) = true) →
       (retryRun o j m d b).result = .raised (errF m) ∧
       (retryRun o j m d b).calls = m) := by
  refine ⟨?_, ?_, ?_⟩
  · intro α o j m d b errF k v hkm hfail hret hok
    obtain ⟨f, rfl⟩ : ∃ f, m = f + 1 :=
      ⟨m - 1, (Nat.succ_pred_eq_of_pos (by omega)).symm⟩
    exact retryGo_failThenOk o j (f + 1) b errF v k 1 f d le_rfl
      (by omega) (by omega)
      (fun i hi hi' => hfail i hi (by omega))
      (fun i hi hi' => hret i hi (by omega))
      (by rw [show 1 + k = k + 1 by omega]; exact hok)
  · intro α o j m d b e hm h1 hnr
    rw [retryRun_first_nonretryable o j m d b e hm h1 hnr]
    exact ⟨rfl, rfl⟩
  · intro α o j m d b errF hm hfail hret
    rw [retryRun_allFail o j m d b errF hm hfail hret]
    exact ⟨rfl, rfl⟩

/-- Witness for C7: a function failing once (retryably) then
returning 42 yields success in 2 calls; a validation error is raised
after a single call; two retryable failures with `max_attempts = 2`
raise the last error after 2 calls. -/
theorem retry_attempt_semantics_witness :
    ((retryRun oFailThenOk jit3 3 1 2).result = .success 42 ∧
     (retryRun oFailThenOk jit3 3 1 2).calls = 2) ∧
    ((retryRun oValidationFail jit3 3 1 2).result =
        .raised (.validationError "bad input") ∧
     (retryRun oValidationFail jit3 3 1 2).calls = 1) ∧
    ((retryRun oRedisFail jit3 2 1 2).result = .raised redisDown ∧
     (retryRun oRedisFail jit3 2 1 2).calls = 2) := by
  refine ⟨?_, ?_, ?_⟩
  · exact retry_attempt_semantics.1 ℕ oFailThenOk jit3 3 1 2
      (fun _ => redisDown) 1 42 (by omega)
      (by intro i h1 h2
          have hi : i = 1 := by omega
          subst hi
          rfl)
      (by intro i h1 h2; rfl)
      rfl
  · exact retry_attempt_semantics.2.1 ℕ oValidationFail jit3 3 1 2
      (.validationError "bad input") (by omega) rfl rfl
  · exact retry_attempt_semantics.2.2 ℕ oRedisFail jit3 2 1 2
      (fun _ => redisDown) (by omega)
      (by intro i h1 h2; rfl) (by intro i h1 h2; rfl)

/-- Claim C1, counterexample: the OPEN-state rejection raises an
`APIConnectionError`, which `is_retryable_error` classifies as
retryable, and a retry wrapper around an always-rejected call makes
all 3 attempts instead of re-raising after the first. -/
theorem circuitOpen_retryable_counterexample :
    (cbOpen5.call 10 (Except.ok (7 : ℕ) : Except PyError ℕ)).1 =
      .rejected (circuitOpenError cbOpen5) ∧
    is_retryable_error (circuitOpenError cbOpen5) = true ∧
    (retryRun oCircuitOpen jit3 3 1 2).calls = 3 := by
  refine ⟨?_, rfl, rfl⟩
  rw [call_rejected cbOpen5 10 0 _ rfl rfl (by norm_num [cbOpen5])]

/-- Claim C1 (amended): an OPEN breaker whose reset timeout has not
elapsed rejects the call with an `APIConnectionError` (endpoint
`"circuit_breaker"`) without invoking the wrapped function and without
changing breaker state; but that error is classified as retryable by
`is_retryable_error`, so a retry wrapper around the guarded call
retries it until its attempts are exhausted instead of re-raising
immediately. -/
theorem circuitOpen_rejects_without_call_but_retryable
    (cb : CircuitBreaker) (now : ℚ)
    (hopen : cb.state = .«open»)
    (hnr : _should_attempt_reset cb now = false) :
    (∀ (α : Type) (outcome : Except PyError α),
       cb.call now outcome = (.rejected (circuitOpenError cb), cb)) ∧
    is_retryable_error (circuitOpenError cb) = true ∧
    (∀ (j : ℕ → ℚ) (m : ℕ) (d b : ℚ), 1 ≤ m →
       (retryRun (fun _ => (.error (circuitOpenError cb) :
           Except PyError Unit)) j m d b).result =
         .raised (circuitOpenError cb) ∧
       (retryRun (fun _ => (.error (circuitOpenError cb) :
           Except PyError Unit)) j m d b).calls = m) := by
  refine ⟨?_, rfl, ?_⟩
  · intro α outcome
    simp [CircuitBreaker.call, hopen, hnr]
  · intro j m d b hm
    rw [retryRun_allFail _ j m d b (fun _ => circuitOpenError cb) hm
      (fun i _ _ => rfl) (fun i _ _ => rfl)]
    exact ⟨rfl, rfl⟩

/-- Witness for the amended C1 at the concrete breaker `cbOpen5` at
time 10. -/
theorem circuitOpen_rejects_without_call_but_retryable_witness :
    cbOpen5.call 10 (Except.ok (0 : ℕ) : Except PyError ℕ) =
      (.rejected (circuitOpenError cbOpen5), cbOpen5) ∧
    is_retryable_error (circuitOpenError cbOpen5) = true ∧
    (retryRun (fun _ => (.error (circuitOpenError cbOpen5) :
        Except PyError Unit)) jit3 2 1 2).calls = 2 := by
  have h := circuitOpen_rejects_without_call_but_retryable cbOpen5 10
    rfl (by norm_num [_should_attempt_reset, cbOpen5])
  exact ⟨h.1 ℕ (Except.ok 0), h.2.1, (h.2.2 jit3 2 1 2 (by omega)).2⟩

/-- Claim C3, counterexample: with `delay = 1`, `backoff_factor = 2`
and a retryable error carrying no per-error override, the delay slept
before the first retry is `2 ^ 1 + jitter` (here jitter `0.3`), not
`initialDelay * backoffFactor ^ 0 = 1`. -/
theorem retry_backoff_delay_counterexample :
    (retryRun oRedisFail jit3 2 1 2).delays = [2 ^ 1 + 3 / 10] ∧
    ((2 : ℚ) ^ 1 + 3 / 10) ≠ 1 * 2 ^ (0 : ℕ) := by
  exact ⟨rfl, by norm_num⟩

/-- Claim C3 (amended): the slept delays are entirely determined by
`get_retry_delay`: the decorator's configured `delay`/`backoff_factor`
never influence the run (the `retry_delay is None` fallback is dead
code); an error with no `retry_after` override sleeps
`2 ^ attempt + jitter`, an error with `retry_after = r` sleeps `r`
(override takes precedence); and in a run of retryable failures the
delay slept before the `k`-th retry is `get_retry_delay` of the `k`-th
error at attempt `k`. -/
theorem retry_delay_formula :
    (∀ (α : Type) (o : ℕ → Except PyError α) (j : ℕ → ℚ) (m : ℕ)
       (d d' b b' : ℚ), retryRun o j m d b = retryRun o j m d' b') ∧
    (∀ (e : PyError) (k : ℕ) (jit : ℚ), retryAfterAttr e = none →
       get_retry_delay e k jit = 2 ^ k + jit) ∧
    (∀ (e : PyError) (k : ℕ) (jit r : ℚ), retryAfterAttr e = some r →
       get_retry_delay e k jit = r) ∧
    (∀ (α : Type) (o : ℕ → Except PyError α) (j : ℕ → ℚ) (m : ℕ)
       (d b : ℚ) (errF : ℕ → PyError), 1 ≤ m →
       (∀ i, 1 ≤ i → i ≤ m → o i = .error (errF i)) →
       (∀ i, 1 ≤ i → i ≤ m → is_retryable_error (errF i) = true) →
       (retryRun o j m d b).delays =
         (List.range' 1 (m - 1)).map
           (fun k => get_retry_delay (errF k) k (j k))) := by
  refine ⟨?_, ?_, ?_, ?_⟩
  · intro α o j m d d' b b'
    exact retryGo_config_independent o j m b b' m 1 d d'
  · intro e k jit h
    simp [get_retry_delay, h]
  · intro e k jit r h
    simp [get_retry_delay, h]
  · intro α o j m d b errF hm hfail hret
    rw [retryRun_allFail o j m d b errF hm hfail hret]

/-- Witness for the amended C3: with two always-failing retryable
attempts, the run is identical under different configured
delay/backoff values, the no-override delay is `2 ^ 1 + 0.3`, a
rate-limit override of 17 wins, and the single slept delay matches the
`get_retry_delay` formula. -/
theorem retry_delay_formula_witness :
    retryRun oRedisFail jit3 2 1 2 = retryRun oRedisFail jit3 2 5 7 ∧
    get_retry_delay redisDown 1 (3 / 10) = 2 ^ 1 + 3 / 10 ∧
    get_retry_delay rateLimited17 1 (3 / 10) = 17 ∧
    (retryRun oRedisFail jit3 2 1 2).delays =
      (List.range' 1 (2 - 1)).map
        (fun k => get_retry_delay redisDown k (jit3 k)) := by
  refine ⟨?_, ?_, ?_, ?_⟩
  · exact retry_delay_formula.1 ℕ oRedisFail jit3 2 1 5 2 7
  · exact retry_delay_formula.2.1 redisDown 1 (3 / 10) rfl
  · exact retry_delay_formula.2.2.1 rateLimited17 1 (3 / 10) 17 rfl
  · exact retry_delay_formula.2.2.2 ℕ oRedisFail jit3 2 1 2
      (fun _ => redisDown) (by omega)
      (by intro i h1 h2; rfl) (by intro i h1 h2; rfl)

/-! ## Job creation lemmas -/

theorem upsert_length_of_mem (xs : List (String × β)) (k : String) (v : β)
    (h : xs.any (fun p => p.1 = k) = true) :
    (upsert xs k v).length = xs.length := by
  simp [upsert, h]

theorem upsert_any_self (xs : List (String × β)) (k : String) (v : β) :
    ((upsert xs k v).any (fun p => p.1 = k)) = true := by
  by_cases h : xs.any (fun p => p.1 = k) = true
  · simp only [upsert, h, if_true]
    rw [List.any_eq_true] at h ⊢
    obtain ⟨x, hx, hxk⟩ := h
    refine ⟨(k, v), List.mem_map.mpr ⟨x, hx, ?_⟩, by simp⟩
    simp [of_decide_eq_true hxk]
  · simp [upsert, h]

theorem create_invalid_eq (cronOk dateOk : String → Bool) (redisOk : Bool)
    (st : SchedState) (jt sct scv nm ds : String) (now : ℕ)
    (hparse : _parse_schedule cronOk dateOk sct scv = none) :
    create_scheduled_job cronOk dateOk redisOk st jt sct scv nm ds now =
      (.invalidSchedule, st) := by
  simp [create_scheduled_job, hparse]

theorem create_unknown_eq (cronOk dateOk : String → Bool) (redisOk : Bool)
    (st : SchedState) (jt sct scv nm ds : String) (now : ℕ)
    (trig : TriggerSpec)
    (hparse : _parse_schedule cronOk dateOk sct scv = some trig)
    (hunk : ¬ KnownJobType jt) :
    create_scheduled_job cronOk dateOk redisOk st jt sct scv nm ds now =
      (.unknownJobType jt, st) := by
  rw [KnownJobType] at hunk
  simp [create_scheduled_job, hparse, hunk]

theorem create_success_eq (cronOk dateOk : String → Bool)
    (st : SchedState) (jt sct scv nm ds : String) (now : ℕ)
    (trig : TriggerSpec)
    (hparse : _parse_schedule cronOk dateOk sct scv = some trig)
    (hkn : KnownJobType jt) :
    create_scheduled_job cronOk dateOk true st jt sct scv nm ds now =
      (.ok (jobMetaOf jt sct scv nm ds now),
       ⟨upsert st.triggers (jobIdOf jt now) trig,
        upsert st.registry ("job:" ++ jobIdOf jt now)
          (jobMetaOf jt sct scv nm ds now)⟩) := by
  rw [KnownJobType] at hkn
  simp [create_scheduled_job, hparse, hkn, jobMetaOf, jobIdOf]

theorem create_persist_failure_eq (cronOk dateOk : String → Bool)
    (st : SchedState) (jt sct scv nm ds : String) (now : ℕ)
    (trig : TriggerSpec)
    (hparse : _parse_schedule cronOk dateOk sct scv = some trig)
    (hkn : KnownJobType jt) :
    create_scheduled_job cronOk dateOk false st jt sct scv nm ds now =
      (.creationFailed,
       ⟨upsert st.triggers (jobIdOf jt now) trig, st.registry⟩) := by
  rw [KnownJobType] at hkn
  simp [create_scheduled_job, hparse, hkn, jobIdOf]

/-- Claim C4, counterexample: when the Redis write persisting the job
entry fails after the trigger has been registered, the call reports
failure but the live trigger remains and no entry is persisted — the
creation is not atomic. -/
theorem createJob_persist_failure_counterexample :
    createPersistFail.1 = .creationFailed ∧
    createPersistFail.2.triggers =
      [("graphflow_100", .cron "0 * * * *")] ∧
    createPersistFail.2.registry = [] := by
  refine ⟨rfl, rfl, rfl⟩

/-- Claim C4 (amended): an unresolvable schedule fails with the
invalid-schedule error touching neither the trigger engine nor the
registry, an unknown job type likewise; with a working store a
creation registers the trigger and persists the entry together; but
when the persistence write fails after trigger registration, the call
reports failure while the live trigger remains registered and no entry
is persisted (no rollback). -/
theorem createJob_atomicity_characterization
    (cronOk dateOk : String → Bool) (st : SchedState)
    (jt sct scv nm ds : String) (now : ℕ) :
    (∀ redisOk, _parse_schedule cronOk dateOk sct scv = none →
       create_scheduled_job cronOk dateOk redisOk st jt sct scv nm ds now =
         (.invalidSchedule, st)) ∧
    (∀ redisOk trig, _parse_schedule cronOk dateOk sct scv = some trig →
       ¬ KnownJobType jt →
       create_scheduled_job cronOk dateOk redisOk st jt sct scv nm ds now =
         (.unknownJobType jt, st)) ∧
    (∀ trig, _parse_schedule cronOk dateOk sct scv = some trig →
       KnownJobType jt →
       create_scheduled_job cronOk dateOk true st jt sct scv nm ds now =
         (.ok (jobMetaOf jt sct scv nm ds now),
          ⟨upsert st.triggers (jobIdOf jt now) trig,
           upsert st.registry ("job:" ++ jobIdOf jt now)
             (jobMetaOf jt sct scv nm ds now)⟩)) ∧
    (∀ trig, _parse_schedule cronOk dateOk sct scv = some trig →
       KnownJobType jt →
       create_scheduled_job cronOk dateOk false st jt sct scv nm ds now =
         (.creationFailed,
          ⟨upsert st.triggers (jobIdOf jt now) trig, st.registry⟩)) := by
  refine ⟨?_, ?_, ?_, ?_⟩
  · intro redisOk hparse
    exact create_invalid_eq cronOk dateOk redisOk st jt sct scv nm ds now
      hparse
  · intro redisOk trig hparse hunk
    exact create_unknown_eq cronOk dateOk redisOk st jt sct scv nm ds now
      trig hparse hunk
  · intro trig hparse hkn
    exact create_success_eq cronOk dateOk st jt sct scv nm ds now trig
      hparse hkn
  · intro trig hparse hkn
    exact create_persist_failure_eq cronOk dateOk st jt sct scv nm ds now
      trig hparse hkn

/-- Witness for the amended C4 at concrete inputs: a bad cron
expression yields the invalid-schedule failure without touching the
state; a successful creation carries both the trigger and the entry;
a failing persistence write leaves the lone trigger. -/
theorem createJob_atomicity_characterization_witness :
    create_scheduled_job (fun _ => false) allOk true stEmpty "graphflow"
        "cron" "bad cron" "n" "d" 100 = (.invalidSchedule, stEmpty) ∧
    create_scheduled_job allOk allOk true stEmpty "graphflow" "cron"
        "0 * * * *" "n" "d" 100 =
      (.ok (jobMetaOf "graphflow" "cron" "0 * * * *" "n" "d" 100),
       ⟨upsert stEmpty.triggers (jobIdOf "graphflow" 100)
          (.cron "0 * * * *"),
        upsert stEmpty.registry ("job:" ++ jobIdOf "graphflow" 100)
          (jobMetaOf "graphflow" "cron" "0 * * * *" "n" "d" 100)⟩) ∧
    create_scheduled_job allOk allOk false stEmpty "graphflow" "cron"
        "0 * * * *" "n" "d" 100 =
      (.creationFailed,
       ⟨upsert stEmpty.triggers (jobIdOf "graphflow" 100)
          (.cron "0 * * * *"), stEmpty.registry⟩) := by
  refine ⟨?_, ?_, ?_⟩
  · exact (createJob_atomicity_characterization (fun _ => false) allOk
      stEmpty "graphflow" "cron" "bad cron" "n" "d" 100).1 true rfl
  · exact (createJob_atomicity_characterization allOk allOk stEmpty
      "graphflow" "cron" "0 * * * *" "n" "d" 100).2.2.1
      (.cron "0 * * * *") rfl (Or.inl rfl)
  · exact (createJob_atomicity_characterization allOk allOk stEmpty
      "graphflow" "cron" "0 * * * *" "n" "d" 100).2.2.2
      (.cron "0 * * * *") rfl (Or.inl rfl)

/-- Claim C5, counterexample: two jobs of the same type created in the
same epoch second receive the same id `graphflow_100`, both creations
report success, and the second silently replaces the first job's
trigger and registry entry (`replace_existing=True` and a Redis
overwrite) instead of erroring. -/
theorem job_id_collision_counterexample :
    createdId createFirst.1 = some "graphflow_100" ∧
    createdId createSecond.1 = some "graphflow_100" ∧
    createFirst.1 ≠ createSecond.1 ∧
    createSecond.2.triggers.length = 1 ∧
    createSecond.2.registry =
      [("job:graphflow_100",
        ⟨"graphflow_100", "b", "", "graphflow", "cron", "0 * * * *",
         100, "scheduled"⟩)] := by
  refine ⟨rfl, rfl, by decide, rfl, rfl⟩

/-- Claim C5 (amended): every successfully created job's id is the job
type followed by an underscore and the creation epoch second; ids are
not unique — a second creation with the same type in the same second
produces the identical id and replaces the existing live trigger
in place (the trigger list does not grow) rather than erroring. -/
theorem job_id_format_and_replacement
    (cronOk dateOk : String → Bool) (st : SchedState)
    (jt sct scv nm ds sct2 scv2 nm2 ds2 : String) (now : ℕ)
    (trig trig2 : TriggerSpec)
    (hparse : _parse_schedule cronOk dateOk sct scv = some trig)
    (hparse2 : _parse_schedule cronOk dateOk sct2 scv2 = some trig2)
    (hkn : KnownJobType jt) :
    createdId
      (create_scheduled_job cronOk dateOk true st jt sct scv nm ds now).1 =
      some (jt ++ "_" ++ toString now) ∧
    createdId
      (create_scheduled_job cronOk dateOk true
        (create_scheduled_job cronOk dateOk true st jt sct scv nm ds now).2
        jt sct2 scv2 nm2 ds2 now).1 = some (jt ++ "_" ++ toString now) ∧
    (create_scheduled_job cronOk dateOk true
        (create_scheduled_job cronOk dateOk true st jt sct scv nm ds now).2
        jt sct2 scv2 nm2 ds2 now).2.triggers.length =
      (create_scheduled_job cronOk dateOk true st jt sct scv nm
        ds now).2.triggers.length := by
  rw [create_success_eq cronOk dateOk st jt sct scv nm ds now trig
    hparse hkn]
  rw [create_success_eq cronOk dateOk _ jt sct2 scv2 nm2 ds2 now trig2
    hparse2 hkn]
  refine ⟨rfl, rfl, ?_⟩
  exact upsert_length_of_mem _ _ _
    (upsert_any_self st.triggers (jobIdOf jt now) trig)

/-- Witness for the amended C5: the two same-second creations from the
counterexample scenario both produce id `graphflow_100` and the second
leaves the trigger count unchanged. -/
theorem job_id_format_and_replacement_witness :
    createdId createFirst.1 = some ("graphflow" ++ "_" ++ toString 100) ∧
    createdId createSecond.1 = some ("graphflow" ++ "_" ++ toString 100) ∧
    createSecond.2.triggers.length = createFirst.2.triggers.length := by
  exact job_id_format_and_replacement allOk allOk stEmpty "graphflow"
    "cron" "0 * * * *" "a" "" "cron" "0 * * * *" "b" "" 100
    (.cron "0 * * * *") (.cron "0 * * * *") rfl rfl (Or.inl rfl)

/-! ## Process supervision claims -/

/-- Claim C8: when the persisted status is `running` and the recorded
pid parses to a live OS process, `start_graphflow` returns the
structured already-running failure, leaves the store untouched (no
second pid persisted) and spawns nothing; the outcome is a returned
value, not an exception. -/
theorem start_already_running_guard (s : Store) (pid_exists : ℕ → Bool)
    (ps : String) (n : ℕ)
    (hs : s.graphflow_status = some GRAPHFLOW_STATUS_RUNNING)
    (hp : s.graphflow_pid = some ps) (hn : pyParseNat ps = some n)
    (hl : pid_exists n = true) :
    ∀ (script_exists : Bool) (new_pid : ℕ),
      start_graphflow s pid_exists script_exists new_pid =
        (.alreadyRunning, s, false) := by
  intro se np
  have hrun : is_graphflow_running s pid_exists = true := by
    simp [is_graphflow_running, is_graphflow_runningE, hs, hp, hn, hl]
  simp [start_graphflow, hrun]

/-- Witness for C8: a store recording status `running` and pid `57`,
with process 57 alive. -/
theorem start_already_running_guard_witness :
    start_graphflow storeRunning57 pidIs57 true 99 =
      (.alreadyRunning, storeRunning57, false) := by
  exact start_already_running_guard storeRunning57 pidIs57 "57" 57
    rfl rfl (by decide) (by decide) true 99

/-- Claim C9: the monitoring routine waits bounded by the one-hour
`GRAPHFLOW_TIMEOUT_SECONDS`; it sets the persisted status to `stopped`
on exit code zero and to `error` on a nonzero exit code, on timeout
(where it also force-terminates the process) and on a monitoring
error; and in every case it clears the persisted pid on completion. -/
theorem monitor_outcome_classification :
    GRAPHFLOW_TIMEOUT_SECONDS = 3600 ∧
    ∀ (s : Store) (o : MonitorOutcome),
      (_monitor_graphflow_process true s o).1.graphflow_pid = none ∧
      (o = .exited 0 →
        (_monitor_graphflow_process true s o).1.graphflow_status =
          some GRAPHFLOW_STATUS_STOPPED ∧
        (_monitor_graphflow_process true s o).2 = false) ∧
      (∀ rc : ℤ, rc ≠ 0 → o = .exited rc →
        (_monitor_graphflow_process true s o).1.graphflow_status =
          some GRAPHFLOW_STATUS_ERROR) ∧
      (o = .timedOut →
        (_monitor_graphflow_process true s o).1.graphflow_status =
          some GRAPHFLOW_STATUS_ERROR ∧
        (_monitor_graphflow_process true s o).2 = true) ∧
      (o = .monitorFailed →
        (_monitor_graphflow_process true s o).1.graphflow_status =
          some GRAPHFLOW_STATUS_ERROR) := by
  refine ⟨rfl, ?_⟩
  intro s o
  cases o with
  | exited rc =>
    by_cases hrc : rc = 0
    · subst hrc
      refine ⟨rfl, fun _ => ⟨rfl, rfl⟩, ?_, by simp, by simp⟩
      intro rc' hrc' heq
      cases heq
      simp at hrc'
    · refine ⟨?_, ?_, ?_, by simp, by simp⟩
      · simp [_monitor_graphflow_process, hrc]
      · intro heq
        cases heq
        simp at hrc
      · intro rc' hrc' heq
        cases heq
        simp [_monitor_graphflow_process, hrc]
  | timedOut =>
    refine ⟨rfl, by simp, by simp, fun _ => ⟨rfl, rfl⟩, by simp⟩
  | monitorFailed =>
    refine ⟨rfl, by simp, by simp, by simp, fun _ => rfl⟩

/-- Witness for C9: the three outcomes at a concrete store. -/
theorem monitor_outcome_classification_witness :
    (_monitor_graphflow_process true storeRunning57
        (.exited 0)).1.graphflow_status = some GRAPHFLOW_STATUS_STOPPED ∧
    (_monitor_graphflow_process true storeRunning57
        (.exited 1)).1.graphflow_status = some GRAPHFLOW_STATUS_ERROR ∧
    (_monitor_graphflow_process true storeRunning57
        .timedOut).2 = true ∧
    (_monitor_graphflow_process true storeRunning57
        .timedOut).1.graphflow_pid = none := by
  have h := monitor_outcome_classification
  refine ⟨((h.2 storeRunning57 (.exited 0)).2.1 rfl).1, ?_, ?_, ?_⟩
  · exact (h.2 storeRunning57 (.exited 1)).2.2.1 1 (by norm_num) rfl
  · exact ((h.2 storeRunning57 .timedOut).2.2.2.1 rfl).2
  · exact (h.2 storeRunning57 .timedOut).1

/-- Claim C10: the status read is fail-safe and total: it always
returns exactly the three keys (the `StatusDict` fields), yielding
`{status: "error", pid: None, is_running: False}` on any failing read
or malformed pid value, defaulting the status to `"stopped"` when no
status record exists, and the liveness check likewise returns `false`
instead of raising on any store or parse error. -/
theorem status_reads_failsafe :
    (∀ (gp : Except Unit (Option String)) (pe : ℕ → Bool),
       get_graphflow_status (.error ()) gp pe =
         ⟨GRAPHFLOW_STATUS_ERROR, none, false⟩ ∧
       is_graphflow_runningE (.error ()) gp pe = false) ∧
    (∀ (gs : Except Unit (Option String)) (pe : ℕ → Bool),
       get_graphflow_status gs (.error ()) pe =
         ⟨GRAPHFLOW_STATUS_ERROR, none, false⟩ ∧
       is_graphflow_runningE gs (.error ()) pe = false) ∧
    (∀ (st : Option String) (pe : ℕ → Bool) (s : String), s ≠ "" →
       pyParseNat s = none →
       get_graphflow_status (.ok st) (.ok (some s)) pe =
         ⟨GRAPHFLOW_STATUS_ERROR, none, false⟩ ∧
       is_graphflow_runningE (.ok st) (.ok (some s)) pe = false) ∧
    (∀ pe : ℕ → Bool,
       get_graphflow_status (.ok none) (.ok none) pe =
         ⟨GRAPHFLOW_STATUS_STOPPED, none, false⟩) ∧
    (∀ (pe : ℕ → Bool) (s : String) (n : ℕ), pyParseNat s = some n →
       get_graphflow_status (.ok none) (.ok (some s)) pe =
         ⟨GRAPHFLOW_STATUS_STOPPED, some n, false⟩) := by
  refine ⟨?_, ?_, ?_, ?_, ?_⟩
  · intro gp pe
    exact ⟨rfl, rfl⟩
  · intro gs pe
    refine ⟨?_, ?_⟩
    · cases gs with
      | error e => rfl
      | ok st => rfl
    · cases gs with
      | error e => rfl
      | ok st =>
        by_cases hst : st = some GRAPHFLOW_STATUS_RUNNING
        · simp [is_graphflow_runningE, hst]
        · simp [is_graphflow_runningE, hst]
  · intro st pe s hne hparse
    refine ⟨?_, ?_⟩
    · simp [get_graphflow_status, hne, hparse]
    · by_cases hst : st = some GRAPHFLOW_STATUS_RUNNING
      · simp [is_graphflow_runningE, hst, hparse]
      · simp [is_graphflow_runningE, hst]
  · intro pe
    rfl
  · intro pe s n hparse
    have hne : ¬ s = "" := by
      intro h
      subst h
      simp [pyParseNat] at hparse
    simp [get_graphflow_status, hne, hparse, is_graphflow_runningE,
      GRAPHFLOW_STATUS_STOPPED, GRAPHFLOW_STATUS_RUNNING]

/-- Witness for C10: failing status read, failing pid read, malformed
pid value, empty store, and a well-formed pid with no status record. -/
theorem status_reads_failsafe_witness :
    get_graphflow_status (.error ()) (.ok (some "57")) pidIs57 =
      ⟨GRAPHFLOW_STATUS_ERROR, none, false⟩ ∧
    get_graphflow_status (.ok (some "running")) (.error ()) pidIs57 =
      ⟨GRAPHFLOW_STATUS_ERROR, none, false⟩ ∧
    get_graphflow_status (.ok (some "running")) (.ok (some "oops"))
        pidIs57 = ⟨GRAPHFLOW_STATUS_ERROR, none, false⟩ ∧
    is_graphflow_runningE (.ok (some "running")) (.ok (some "oops"))
        pidIs57 = false ∧
    get_graphflow_status (.ok none) (.ok none) pidIs57 =
      ⟨GRAPHFLOW_STATUS_STOPPED, none, false⟩ ∧
    get_graphflow_status (.ok none) (.ok (some "57")) pidIs57 =
      ⟨GRAPHFLOW_STATUS_STOPPED, some 57, false⟩ := by
  have h := status_reads_failsafe
  refine ⟨(h.1 (.ok (some "57")) pidIs57).1,
    (h.2.1 (.ok (some "running")) pidIs57).1, ?_, ?_, h.2.2.2.1 pidIs57,
    h.2.2.2.2 pidIs57 "57" 57 (by decide)⟩
  · exact (h.2.2.1 (some "running") pidIs57 "oops" (by decide)
      (by decide)).1
  · exact (h.2.2.1 (some "running") pidIs57 "oops" (by decide)
      (by decide)).2

end AgenticCrypto
